import Mathlib

/-!
Verification of the pySim smart-card codec core: a shallow embedding of the
relevant parts of src/pySim (ara_m.py, global_platform/__init__.py,
esim/saip/templates.py, pySim-trace.py) together with theorems settling the
claims about its specification.  Byte strings are modelled as `List Nat` with
each element a byte value.
-/

namespace PySim

/-- Lower-case hex digit character for a value 0..15, as produced by Python
hex formatting (`b2h`, `%02x`). -/
def hexDigitChar (n : Nat) : Char :=
  if n < 10 then Char.ofNat (48 + n) else Char.ofNat (97 + (n - 10))

/-- Two-character lower-case hex representation of one byte (Python `%02x`). -/
def byteToHex (b : Nat) : String :=
  String.mk [hexDigitChar (b / 16 % 16), hexDigitChar (b % 16)]

/-- Modelled from the spec: `b2h` of pySim.utils is not under src/; it renders a
byte string as a lower-case hex string, two digits per byte. -/
def b2h (bs : List Nat) : String :=
  String.join (bs.map byteToHex)

/-- Numeric value of one hex digit character (used by `h2b`). -/
def hexCharVal (c : Char) : Nat :=
  if 48 ≤ c.toNat ∧ c.toNat ≤ 57 then c.toNat - 48
  else if 97 ≤ c.toNat ∧ c.toNat ≤ 102 then c.toNat - 87
  else if 65 ≤ c.toNat ∧ c.toNat ≤ 70 then c.toNat - 55
  else 0

/-- Helper for `h2b`: converts pairs of hex digit characters into bytes. -/
def hexPairsToBytes : List Char → List Nat
  | c1 :: c2 :: rest => (hexCharVal c1 * 16 + hexCharVal c2) :: hexPairsToBytes rest
  | _ => []

/-- Modelled from the spec: `h2b` of pySim.utils is not under src/; it parses a
hex string into a byte string, one byte per two hex digits. -/
def h2b (s : String) : List Nat :=
  hexPairsToBytes s.data

/-- Outcome of a Python method call in this embedding: a normal return value,
a `ValueError` object RETURNED as the result (as several paths in
src/pySim/ara_m.py do), or a raised `NameError`. -/
inductive PyOutcome (α : Type) where
  | ok (v : α)
  | returnedValueError (msg : String)
  | raisedNameError (name : String)
deriving DecidableEq, Repr

/-- One APDU filter entry as handled by `ApduArDO._to_bytes`
(src/pySim/ara_m.py lines 97-106): a dict with hex-string values for the
keys `header` and `mask`. -/
structure ApduFilter where
  header : String
  mask : String
deriving DecidableEq, Repr

/-- Element of the `apdu_filter` list: either a proper header/mask dict (as
`_to_bytes` expects) or a bare string (as the decode loop actually appends). -/
inductive ApduArFilterElem where
  | dict (f : ApduFilter)
  | str (s : String)
deriving DecidableEq, Repr

/-- The decoded value (`self.decoded`) of an `ApduArDO` as a Python dict with
either the key `generic_access_rule` (a string) or the key `apdu_filter`
(a list).  In the source the multi-byte decode path appends the STRINGS
`header` and `mask` to that list (see `apduArFilterLoop`), while
`_to_bytes` expects a list of header/mask dicts; both element shapes are
representable here. -/
inductive ApduArDecoded where
  | genericAccessRule (rule : String)
  | apduFilter (entries : List ApduArFilterElem)
deriving DecidableEq, Repr

/-- Embedding of the while-loop of `ApduArDO._from_bytes`
(src/pySim/ara_m.py lines 80-83):

  offset = 0
  while offset < len(do):
      self.decoded[apdu_filter] += dict of header/mask

The Python `list += dict` statement extends the list with the KEYS of the
dict (the strings `header` and `mask`), and `offset` is never incremented
inside the loop.  `fuel` bounds the number of iterations executed;
`none` means the loop is still running when the fuel runs out. -/
def apduArFilterLoop (dob : List Nat) (offset : Nat) :
    Nat → List ApduArFilterElem → Option (List ApduArFilterElem)
  | 0, acc =>
    if offset < dob.length then none else some acc
  | fuel + 1, acc =>
    if offset < dob.length then
      apduArFilterLoop dob offset fuel (acc ++ [.str "header", .str "mask"])
    else some acc

/-- Embedding of `ApduArDO._from_bytes` (src/pySim/ara_m.py lines 67-85).
The Python parameter is named `do`, a Lean keyword, hence `dob`.  On the
1-byte path the method returns the decoded dict or RETURNS a `ValueError`
object.  On the other path, after the (never-terminating for non-empty
input) filter loop, the source executes `self.decoded = res` with `res`
unbound, which raises `NameError`.  For the multi-byte path the most
favourable pre-state of `self.decoded` (an empty dict, so that the item
assignment `self.decoded[apdu_filter] = []` succeeds) is assumed.
`fuel` bounds the loop iterations; `none` models non-termination within
the given fuel. -/
def apduArDO_from_bytes (fuel : Nat) (dob : List Nat) : Option (PyOutcome ApduArDecoded) :=
  if dob.length = 1 then
    if dob.headD 0 = 0x00 then some (.ok (.genericAccessRule "never"))
    else if dob.headD 0 = 0x01 then some (.ok (.genericAccessRule "always"))
    else some (.returnedValueError "Invalid 1-byte generic APDU access rule")
  else
    if dob.length % 8 ≠ 0 then
      some (.returnedValueError "Invalid non-modulo-8 length of APDU filter")
    else
      match apduArFilterLoop dob 0 fuel [] with
      | none => none
      | some _ => some (.raisedNameError "res")

/-- Embedding of the filter-encoding loop of `ApduArDO._to_bytes`
(src/pySim/ara_m.py lines 98-107): each filter entry must be a dict with
4-byte `header` and `mask`; error conditions are RETURNED `ValueError`
objects, exactly as in the source. -/
def apduArEncodeFilters : List ApduArFilterElem → List Nat → PyOutcome (List Nat)
  | [], acc => .ok acc
  | .str _ :: _, _ => .returnedValueError "APDU filter must contain header and mask"
  | .dict f :: rest, acc =>
    let header_b := h2b f.header
    let mask_b := h2b f.mask
    if header_b.length ≠ 4 ∨ mask_b.length ≠ 4 then
      .returnedValueError "APDU filter header and mask must each be 4 bytes"
    else apduArEncodeFilters rest (acc ++ header_b ++ mask_b)

/-- Embedding of `ApduArDO._to_bytes` (src/pySim/ara_m.py lines 87-107). -/
def apduArDO_to_bytes : ApduArDecoded → PyOutcome (List Nat)
  | .genericAccessRule r =>
    if r = "never" then .ok [0x00]
    else if r = "always" then .ok [0x01]
    else .returnedValueError "Invalid 1-byte generic APDU access rule"
  | .apduFilter fs => apduArEncodeFilters fs []

/-- Embedding of the command-data handling of `ADF_ARAM.xceive_apdu_tlv`
(src/pySim/ara_m.py lines 268-276), up to the construction of the command
APDU hex string; the actual card exchange lives in transport code outside
this fragment.  The argument is the TLV-encoded command data object
(`cmd_do.to_ie()`), or `none` when `cmd_do` is falsy.  If the encoded DO
is longer than 255 bytes, the source RETURNS a `ValueError` object. -/
def xceive_apdu_tlv_capdu (hdr : String) (cmd_do_enc : Option (List Nat)) : PyOutcome String :=
  match cmd_do_enc with
  | some enc =>
    if enc.length > 255 then .returnedValueError "DO > 255 bytes not supported yet"
    else .ok (hdr ++ byteToHex enc.length ++ b2h enc)
  | none => .ok (hdr ++ byteToHex 0 ++ b2h [])

/-- A GlobalPlatform card keyset as constructed by `GpCardKeyset.__init__`
(src/pySim/global_platform/__init__.py lines 758-764). -/
structure GpCardKeyset where
  kvn : Int
  enc : List Nat
  mac : List Nat
  dek : List Nat
deriving DecidableEq, Repr

/-- A Python value appearing in the `kvn` argument position: an actual
integer, or the builtin type object `int` itself (which is what
`from_single_key` passes). -/
inductive PyIntOrType where
  | intVal (n : Int)
  | intTypeObject
deriving DecidableEq, Repr

/-- Embedding of `GpCardKeyset.__init__` (src/pySim/global_platform/__init__.py
lines 758-764).  The statement `assert kvn >= 0 and kvn < 256` evaluates
`kvn >= 0` first; comparing the builtin type object `int` with an integer
raises `TypeError` in Python 3. -/
def gpCardKeyset_init (kvn : PyIntOrType) (enc mac dek : List Nat) :
    Except String GpCardKeyset :=
  match kvn with
  | .intTypeObject => .error "TypeError"
  | .intVal n =>
    if 0 ≤ n ∧ n < 256 then
      if enc.length = mac.length ∧ mac.length = dek.length then .ok ⟨n, enc, mac, dek⟩
      else .error "AssertionError"
    else .error "AssertionError"

/-- Embedding of `GpCardKeyset.from_single_key`
(src/pySim/global_platform/__init__.py lines 766-768):
`return cls(int, base_key, base_key, base_key)` — the first constructor
argument is the builtin type `int`, not the parameter `kvn`, which is
ignored. -/
def gpCardKeyset_from_single_key (kvn : Nat) (base_key : List Nat) :
    Except String GpCardKeyset :=
  gpCardKeyset_init .intTypeObject base_key base_key base_key

/-! BER-TLV tag/length primitives.  Modelled from the spec: the generic TLV
codec (pySim.tlv / pySim.utils) is code of this repository that is not under
src/; spec section 4.1 defines it: tag bytes follow the BER-TLV continuation
rule (first byte with all low 5 bits set means more tag bytes follow, each
subsequent byte with the high bit set continues); length is short form
(byte below 0x80 is the literal length) or long form (low 7 bits give the
count of following big-endian length bytes); a long-form count of 0
(indefinite) or one exceeding the remaining buffer is a MalformedLength
failure, as is a value length exceeding the remaining buffer. -/

/-- Modelled from the spec (section 4.1): read the raw tag bytes of one
BER-TLV element from the front of the buffer, returning them together with
the rest of the buffer. -/
def bertlvTagBytes : List Nat → Option (List Nat × List Nat)
  | [] => none
  | b0 :: rest =>
    if b0 % 32 = 31 then
      match bertlvTagCont rest with
      | some (more, rest1) => some (b0 :: more, rest1)
      | none => none
    else some ([b0], rest)
where
  /-- Subsequent tag bytes: each byte with the high bit set continues; the
  first byte without it ends the tag. -/
  bertlvTagCont : List Nat → Option (List Nat × List Nat)
  | [] => none
  | b :: rest =>
    if b ≥ 0x80 then
      match bertlvTagCont rest with
      | some (more, rest1) => some (b :: more, rest1)
      | none => none
    else some ([b], rest)

/-- Modelled from the spec (section 4.1): the tag of a BER-TLV element as a
numeric value (big-endian combination of its raw bytes, matching how the
descriptor declarations in the source write tags such as 0xff40). -/
def bertlv_parse_tag (bs : List Nat) : Option (Nat × List Nat) :=
  match bertlvTagBytes bs with
  | some (tagBytes, rest) => some (tagBytes.foldl (fun a b => a * 256 + b) 0, rest)
  | none => none

/-- Modelled from the spec (section 4.1): BER-TLV length decoding, short and
long form; `none` is a MalformedLength failure. -/
def bertlv_parse_len : List Nat → Option (Nat × List Nat)
  | [] => none
  | b :: rest =>
    if b < 0x80 then some (b, rest)
    else
      let cnt := b - 0x80
      if cnt = 0 then none
      else if rest.length < cnt then none
      else some ((rest.take cnt).foldl (fun a x => a * 256 + x) 0, rest.drop cnt)

/-- Modelled from the spec (sections 4.1 and 4.2): read one tag+length+value
from the front of the buffer, returning (tag, value bytes, leftover bytes);
the leftover is handed back so a caller parsing back-to-back TLV structures
can keep decoding. -/
def bertlv_parse_one (bs : List Nat) : Option (Nat × List Nat × List Nat) :=
  match bertlv_parse_tag bs with
  | none => none
  | some (tag, rest1) =>
    match bertlv_parse_len rest1 with
    | none => none
    | some (len, rest2) =>
      if rest2.length < len then none
      else some (tag, rest2.take len, rest2.drop len)

/-- Helper for `natToBytesBE`: the first argument is fuel that makes the
recursion structural. -/
def natToBytesBEAux : Nat → Nat → List Nat
  | 0, _ => []
  | fuel + 1, n => if n = 0 then [] else natToBytesBEAux fuel (n / 256) ++ [n % 256]

/-- Minimal big-endian byte representation of a natural number (empty for 0);
the number itself always suffices as fuel. -/
def natToBytesBE (n : Nat) : List Nat :=
  natToBytesBEAux n n

/-- Modelled from the spec (section 4.1): canonical minimal BER-TLV length
encoding (short form below 0x80, else minimal long form). -/
def bertlv_encode_len (n : Nat) : List Nat :=
  if n < 0x80 then [n]
  else (0x80 + (natToBytesBE n).length) :: natToBytesBE n

/-- Modelled from the spec (section 4.1): the raw bytes of a tag written as a
numeric value, as the descriptor declarations in the source do. -/
def bertlv_encode_tag (t : Nat) : List Nat :=
  if t = 0 then [0] else natToBytesBE t

/-! KeyInformationData codec (src/pySim/global_platform/__init__.py lines
105-122).  The `_construct` declares the value layout
Struct(key_identifier/Byte, key_version_number/Byte,
key_types/GreedyRange(Struct(type/KeyType, length/Int8ub))); the construct
library runtime itself is outside src/, so the declared field layout is
embedded directly: one byte key identifier, one byte key version number,
then greedily repeated (type byte, length byte) pairs. -/

/-- The KeyType enumeration (src/pySim/global_platform/__init__.py lines
73-96) as the list of (name, byte value) pairs declared in the source. -/
def keyTypeMapping : List (String × Nat) :=
  [("des", 0x80), ("tls_psk", 0x85), ("aes", 0x88), ("hmac_sha1", 0x90),
   ("hmac_sha1_160", 0x91), ("rsa_public_exponent_e_cleartex", 0xA0),
   ("rsa_modulus_n_cleartext", 0xA1), ("rsa_modulus_n", 0xA2),
   ("rsa_private_exponent_d", 0xA3), ("rsa_chines_remainder_p", 0xA4),
   ("rsa_chines_remainder_q", 0xA5), ("rsa_chines_remainder_pq", 0xA6),
   ("rsa_chines_remainder_dpi", 0xA7), ("rsa_chines_remainder_dqi", 0xA8),
   ("ecc_public_key", 0xB0), ("ecc_private_key", 0xB1),
   ("ecc_field_parameter_p", 0xB2), ("ecc_field_parameter_a", 0xB3),
   ("ecc_field_parameter_b", 0xB4), ("ecc_field_parameter_g", 0xB5),
   ("ecc_field_parameter_n", 0xB6), ("ecc_field_parameter_k", 0xB7),
   ("ecc_key_parameters_reference", 0xF0), ("not_available", 0xff)]

/-- Symbolic name of a KeyType byte value, per the KeyType enumeration. -/
def keyTypeName (b : Nat) : Option String :=
  (keyTypeMapping.find? (fun p => p.2 == b)).map Prod.fst

/-- Byte value of a symbolic KeyType name, per the KeyType enumeration. -/
def keyTypeByte (s : String) : Option Nat :=
  (keyTypeMapping.find? (fun p => p.1 == s)).map Prod.snd

/-- Greedy decode of the key_types list: repeated 2-byte records of
(type, length), per the KeyTypeLen Struct of KeyInformationData. -/
def parseKeyTypeList : List Nat → Option (List (String × Nat))
  | [] => some []
  | t :: l :: rest =>
    match keyTypeName t with
    | some n => (parseKeyTypeList rest).map (fun r => (n, l) :: r)
    | none => none
  | [_] => none

/-- The decoded value of a KeyInformationData data object: key_identifier,
key_version_number and the key_types list of (type name, length) pairs. -/
structure KeyInformationDataValue where
  key_identifier : Nat
  key_version_number : Nat
  key_types : List (String × Nat)
deriving DecidableEq, Repr

/-- Decode of the KeyInformationData value bytes per its `_construct`. -/
def keyInformationData_decode_value : List Nat → Option KeyInformationDataValue
  | ki :: kvn :: rest => (parseKeyTypeList rest).map (fun kt => ⟨ki, kvn, kt⟩)
  | _ => none

/-- Decode of one KeyInformationData TLV (tag 0xc0) from the front of a
buffer, returning the decoded value and the leftover bytes; a tag other
than the declared 0xc0 is an error. -/
def keyInformationData_from_tlv (bs : List Nat) :
    Option (KeyInformationDataValue × List Nat) :=
  match bertlv_parse_one bs with
  | some (tag, val, rem) =>
    if tag = 0xc0 then (keyInformationData_decode_value val).map (fun v => (v, rem))
    else none
  | none => none

/-- Encode of the key_types list (inverse of `parseKeyTypeList`). -/
def encodeKeyTypeList : List (String × Nat) → Option (List Nat)
  | [] => some []
  | (s, l) :: rest =>
    match keyTypeByte s with
    | some b => (encodeKeyTypeList rest).map (fun r => b :: l :: r)
    | none => none

/-- Encode of a KeyInformationData value back to its TLV bytes under tag
0xc0. -/
def keyInformationData_to_tlv (v : KeyInformationDataValue) : Option (List Nat) :=
  (encodeKeyTypeList v.key_types).map (fun kt =>
    let val := v.key_identifier :: v.key_version_number :: kt
    bertlv_encode_tag 0xc0 ++ bertlv_encode_len val.length ++ val)

/-! GET STATUS (src/pySim/global_platform/__init__.py lines 576-595). -/

/-- Modelled from the spec (sections 4.2 and 4.3) for the part outside src/:
`GpRegistryRelatedData().from_tlv(remainder)` parses one TLV element from
the front of the remainder and returns the decoded element together with
the leftover bytes; an element whose tag is not the declared 0xe3 is an
UnexpectedElement failure.  The element is kept as its (tag, value bytes)
pair here. -/
def grd_from_tlv (bs : List Nat) : Option ((Nat × List Nat) × List Nat) :=
  match bertlv_parse_one bs with
  | some (tag, val, rem) => if tag = 0xe3 then some ((tag, val), rem) else none
  | none => none

/-- Embedding of the inner while-loop of `get_status`
(src/pySim/global_platform/__init__.py lines 586-590): decode the response
data as a back-to-back sequence of GpRegistryRelatedData elements, feeding
the leftover bytes of each `from_tlv` call into the next.  The fuel (first
argument) makes the recursion structural; `decode_grd_sequence` supplies
one unit per input byte, which is enough since every parsed element
consumes at least one byte. -/
def grdSeqLoop : Nat → List Nat → List (Nat × List Nat) → Option (List (Nat × List Nat))
  | _, [], acc => some acc
  | 0, _ :: _, _ => none
  | fuel + 1, b :: bs, acc =>
    match grd_from_tlv (b :: bs) with
    | none => none
    | some (grd, rem) => grdSeqLoop fuel rem (acc ++ [grd])

/-- Decode of one GET STATUS response data field as a sequence of
GpRegistryRelatedData elements (inner loop of `get_status`). -/
def decode_grd_sequence (bs : List Nat) : Option (List (Nat × List Nat)) :=
  grdSeqLoop bs.length bs []

/-- Embedding of the outer while-loop of `get_status`
(src/pySim/global_platform/__init__.py lines 581-595).  `responses` models
the successive (response data bytes, status word) pairs returned by
`send_apdu` for the successively issued commands.  The result carries the
collected element list and, for the claim about the continuation bit, the
P2 value of each issued command; `p2` starts at 0x02 and the loop repeats
with `p2 = p2 ||| 0x01` exactly when the status word is 6310.  `none`
models a decode failure or an exhausted response trace (the source would
block reading the card). -/
def get_status_loop :
    List (List Nat × String) → Nat → List (Nat × List Nat) → List Nat →
    Option (List (Nat × List Nat) × List Nat)
  | [], _, _, _ => none
  | (data, sw) :: rest, p2, grd_list, issued =>
    match decode_grd_sequence data with
    | none => none
    | some elems =>
      if sw ≠ "6310" then some (grd_list ++ elems, issued ++ [p2])
      else get_status_loop rest (p2 ||| 0x01) (grd_list ++ elems) (issued ++ [p2])

/-- `ADF_SD.AddlShellCommands.get_status` on a given trace of responses. -/
def get_status (responses : List (List Nat × String)) :
    Option (List (Nat × List Nat) × List Nat) :=
  get_status_loop responses 0x02 [] []

/-- Concatenation of a list of lists, in encounter order. -/
def concatAll {α : Type} : List (List α) → List α
  | [] => []
  | l :: ls => l ++ concatAll ls

/-! APDU instruction registry (src/pySim-trace.py lines 29-34 builds
`ApduCommands = UiccApduCommands + UsimApduCommands`).  Modelled from the
spec: the command tables (pySim.apdu.ts_102_221 / ts_31_102) and the table
type implementing `+` are code of this repository not under src/; spec
sections 2 and 4.4 define a table as a list of entries mapping a
(class, instruction) key to a command descriptor, and merging as
last-writer-wins: when two tables define the same key, the later table's
entry replaces the earlier one. -/

/-- A command table: entries in declaration order, each mapping a
(class byte, instruction byte) key to a command descriptor. -/
abbrev CommandTable (δ : Type) := List ((Nat × Nat) × δ)

/-- Modelled from the spec (section 4.4): apply one table's entries, in
order, on top of an existing registry; each entry overrides any earlier
binding of its key. -/
def registryAddTable {δ : Type} :
    ((Nat × Nat) → Option δ) → CommandTable δ → (Nat × Nat) → Option δ
  | reg, [] => reg
  | reg, e :: t => registryAddTable (fun q => if e.1 = q then some e.2 else reg q) t

/-- Modelled from the spec (section 4.4): the merged registry built from a
list of command tables, later tables overriding earlier ones on key
collisions. -/
def buildRegistry {δ : Type} (tables : List (CommandTable δ)) : (Nat × Nat) → Option δ :=
  tables.foldl registryAddTable (fun _ => none)

/-- Whether a command table defines a (class, instruction) key. -/
def tableDefines {δ : Type} (t : CommandTable δ) (k : Nat × Nat) : Bool :=
  t.any (fun e => e.1 = k)

/-- First-some choice on options (the Python dict lookup composed of an
overriding layer over a base layer). -/
def orElseO {δ : Type} : Option δ → Option δ → Option δ
  | some v, _ => some v
  | none, b => b

/-- The binding a single table on its own gives a key: its LAST entry for
that key, if any (later entries of one table also override earlier ones). -/
def tableLookupLast {δ : Type} : CommandTable δ → (Nat × Nat) → Option δ
  | [], _ => none
  | e :: t, k => orElseO (tableLookupLast t k) (if e.1 = k then some e.2 else none)

/-! Tracer main loop (src/pySim-trace.py lines 101-124). -/

/-- Per-channel Runtime Navigation State.  Modelled from the spec (sections
3 and 4.5) for the part outside src/ (pySim.runtime.RuntimeState): each
logical channel is either Unselected or has a selected node with the path
walked to reach it. -/
inductive ChannelState where
  | unselected
  | selectedPath (path : List Nat)
deriving DecidableEq, Repr

/-- Runtime Navigation State: one entry per logical channel. -/
structure RuntimeState where
  channels : List ChannelState
deriving DecidableEq, Repr

/-- Modelled from the spec (section 4.5): `RuntimeState.reset` (called as
`self.rs.reset()` in Tracer.main; pySim.runtime is not under src/) clears
all channels' state back to Unselected. -/
def runtimeStateReset (rs : RuntimeState) : RuntimeState :=
  ⟨rs.channels.map (fun _ => .unselected)⟩

/-- An event yielded by `self.source.read()` in Tracer.main: either a
distinguished CardReset or an APDU (kept abstract as its raw data, which
is all the loop structure depends on). -/
inductive TraceEvent (β : Type) where
  | cardReset
  | apdu (a : β)

/-- Embedding of one iteration of `Tracer.main`
(src/pySim-trace.py lines 101-124).  A CardReset event resets the entire
RuntimeState and `continue`s before the instruction-registry lookup
(`self.ad.input`) and `inst.process(self.rs)` are reached; any other event
goes through lookup and process.  The decoder lookup combined with
`process` is abstracted as the function `inputAndProcess`; the returned
Bool records whether lookup/process was performed for this event. -/
def tracerStep {β : Type} (inputAndProcess : β → RuntimeState → RuntimeState)
    (rs : RuntimeState) : TraceEvent β → RuntimeState × Bool
  | .cardReset => (runtimeStateReset rs, false)
  | .apdu a => (inputAndProcess a rs, true)

/-! Profile templates (src/pySim/esim/saip/templates.py). -/

/-- ASCII lower-casing of one character, as Python str.lower() does on the
ASCII file names used in the templates. -/
def pyLowerChar (c : Char) : Char :=
  if 65 ≤ c.toNat ∧ c.toNat ≤ 90 then Char.ofNat (c.toNat + 32) else c

/-- Derivation of the default pe_name in `FileTemplate.__init__`
(src/pySim/esim/saip/templates.py lines 31-34):
`self.name.replace(".","-").replace("_","-").lower()`. -/
def peNameOfName (name : String) : String :=
  String.mk (name.data.map (fun c => pyLowerChar (if c = '.' ∨ c = '_' then '-' else c)))

/-- A file in a profile template, restricted to the fields the
files_by_pename map depends on: fid, name and pe_name. -/
structure FileTemplate where
  fid : Option Nat
  name : String
  pe_name : String
deriving DecidableEq, Repr

/-- A `FileTemplate(...)` construction without an explicit pe_name keyword:
the pe_name is derived from the name. -/
def mkFile (fid : Option Nat) (name : String) : FileTemplate :=
  ⟨fid, name, peNameOfName name⟩

/-- A `FileTemplate(...)` construction with an explicit pe_name keyword. -/
def mkFileP (fid : Option Nat) (name : String) (pe : String) : FileTemplate :=
  ⟨fid, name, pe⟩

/-- The files list of ProfileTemplate subclass FilesAtMF (src/pySim/esim/saip/templates.py). -/
def filesAtMF : List FileTemplate :=
  [mkFile (some 0x3f00) "MF",
   mkFile (some 0x2f05) "EF.PL",
   mkFile (some 0x2f02) "EF.ICCID",
   mkFile (some 0x2f00) "EF.DIR",
   mkFile (some 0x2f06) "EF.ARR",
   mkFile (some 0x2f08) "EF.UMPC"]

/-- The files list of ProfileTemplate subclass FilesCD (src/pySim/esim/saip/templates.py). -/
def filesCD : List FileTemplate :=
  [mkFile (some 0x7f11) "DF.CD",
   mkFile (some 0x6f01) "EF.LAUNCHPAD"] ++
  ((List.range' 0x40 63).map (fun i => mkFile (some (0x6f00 + i)) "EF.ICON"))

/-- The files list of module-level df_pb_files (src/pySim/esim/saip/templates.py). -/
def df_pb_files : List FileTemplate :=
  [mkFile (some 0x5f3a) "DF.PHONEBOOK",
   mkFile (some 0x4f30) "EF.PBR"] ++
  ((List.range' 0x38 8).map (fun i => mkFile (some (0x4f00 + i)) "EF.EXT1")) ++
  ((List.range' 0x40 8).map (fun i => mkFile (some (0x4f00 + i)) "EF.AAS")) ++
  ((List.range' 0x48 8).map (fun i => mkFile (some (0x4f00 + i)) "EF.GAS")) ++
  [mkFile (some 0x4f22) "EF.PSC",
   mkFile (some 0x4f23) "EF.CC",
   mkFile (some 0x4f24) "EF.PUID"] ++
  ((List.range' 0x50 8).map (fun i => mkFile (some (0x4f00 + i)) "EF.IAP")) ++
  ((List.range' 0x58 8).map (fun i => mkFile (some (0x4f00 + i)) "EF.ADN")) ++
  ((List.range' 0x60 8).map (fun i => mkFile (some (0x4f00 + i)) "EF.ADN")) ++
  ((List.range' 0x68 8).map (fun i => mkFile (some (0x4f00 + i)) "EF.ANR")) ++
  ((List.range' 0x70 8).map (fun i => mkFile (some (0x4f00 + i)) "EF.PURI")) ++
  ((List.range' 0x78 8).map (fun i => mkFile (some (0x4f00 + i)) "EF.EMAIL")) ++
  ((List.range' 0x80 8).map (fun i => mkFile (some (0x4f00 + i)) "EF.SNE")) ++
  ((List.range' 0x88 8).map (fun i => mkFile (some (0x4f00 + i)) "EF.UID")) ++
  ((List.range' 0x90 8).map (fun i => mkFile (some (0x4f00 + i)) "EF.GRP")) ++
  ((List.range' 0x98 8).map (fun i => mkFile (some (0x4f00 + i)) "EF.CCP1"))

/-- The files list of ProfileTemplate subclass FilesTelecom (src/pySim/esim/saip/templates.py). -/
def filesTelecom : List FileTemplate :=
  [mkFile (some 0x7f11) "DF.TELECOM",
   mkFile (some 0x6f06) "EF.ARR",
   mkFile (some 0x6f53) "EF.RMA",
   mkFile (some 0x6f54) "EF.SUME",
   mkFile (some 0x6fe0) "EF.ICE_DN",
   mkFile (some 0x6fe1) "EF.ICE_FF",
   mkFile (some 0x6fe5) "EF.PSISMSC",
   mkFile (some 0x5f50) "DF.GRAPHICS",
   mkFile (some 0x4f20) "EF.IMG",
   mkFile (some 0x4f21) "EF.ICE_GRAPHICS",
   mkFile (some 0x4f01) "EF.LAUNCH_SCWS"] ++
  ((List.range' 0x40 64).map (fun i => mkFile (some (0x4f00 + i)) "EF.IIDF")) ++
  ((List.range' 0x80 64).map (fun i => mkFile (some (0x4f00 + i)) "EF.ICON")) ++
  df_pb_files ++
  [mkFile (some 0x5f3b) "DF.MULTIMEDIA",
   mkFile (some 0x4f47) "EF.MML",
   mkFile (some 0x4f48) "EF.MMDF",
   mkFile (some 0x5f3c) "DF.MMSS",
   mkFile (some 0x4f20) "EF.MLPL",
   mkFile (some 0x4f21) "EF.MSPL",
   mkFile (some 0x4f21) "EF.MMSSMODE"]

/-- The files list of ProfileTemplate subclass FilesTelecomV2 (src/pySim/esim/saip/templates.py). -/
def filesTelecomV2 : List FileTemplate :=
  [mkFile (some 0x7f11) "DF.TELECOM",
   mkFile (some 0x6f06) "EF.ARR",
   mkFile (some 0x6f53) "EF.RMA",
   mkFile (some 0x6f54) "EF.SUME",
   mkFile (some 0x6fe0) "EF.ICE_DN",
   mkFile (some 0x6fe1) "EF.ICE_FF",
   mkFile (some 0x6fe5) "EF.PSISMSC",
   mkFile (some 0x5f50) "DF.GRAPHICS",
   mkFile (some 0x4f20) "EF.IMG",
   mkFile (some 0x4f21) "EF.ICE_GRRAPHICS",
   mkFile (some 0x4f01) "EF.LAUNCH_SCWS"] ++
  ((List.range' 0x40 64).map (fun i => mkFile (some (0x4f00 + i)) "EF.IIDF")) ++
  ((List.range' 0x80 64).map (fun i => mkFile (some (0x4f00 + i)) "EF.ICON")) ++
  df_pb_files ++
  [mkFile (some 0x5f3b) "DF.MULTIMEDIA",
   mkFile (some 0x4f47) "EF.MML",
   mkFile (some 0x4f48) "EF.MMDF",
   mkFile (some 0x5f3c) "DF.MMSS",
   mkFile (some 0x4f20) "EF.MLPL",
   mkFile (some 0x4f21) "EF.MSPL",
   mkFile (some 0x4f21) "EF.MMSSMODE",
   mkFile (some 0x5f3d) "DF.MCS",
   mkFile (some 0x4f01) "EF.MST",
   mkFile (some 0x4f02) "EF.MCSCONFIG",
   mkFile (some 0x5f3e) "DF.V2X",
   mkFile (some 0x4f01) "EF.VST",
   mkFile (some 0x4f02) "EF.V2X_CONFIG",
   mkFile (some 0x4f03) "EF.V2XP_PC5",
   mkFile (some 0x4f04) "EF.V2XP_Uu"]

/-- The files list of ProfileTemplate subclass FilesUsimMandatory (src/pySim/esim/saip/templates.py). -/
def filesUsimMandatory : List FileTemplate :=
  [mkFile none "ADF.USIM",
   mkFile (some 0x6f07) "EF.IMSI",
   mkFile (some 0x6f06) "EF.ARR",
   mkFile (some 0x6f08) "EF.Keys",
   mkFileP (some 0x6f09) "EF.KeysPS" "ef-keysPS",
   mkFile (some 0x6f31) "EF.HPPLMN",
   mkFile (some 0x6f38) "EF.UST",
   mkFile (some 0x6f3b) "EF.FDN",
   mkFile (some 0x6f3c) "EF.SMS",
   mkFile (some 0x6f42) "EF.SMSP",
   mkFile (some 0x6f43) "EF.SMSS",
   mkFile (some 0x6f46) "EF.SPN",
   mkFile (some 0x6f56) "EF.EST",
   mkFile (some 0x6f5b) "EF.START-HFN",
   mkFile (some 0x6f5c) "EF.THRESHOLD",
   mkFile (some 0x6f73) "EF.PSLOCI",
   mkFile (some 0x6f78) "EF.ACC",
   mkFile (some 0x6f7b) "EF.FPLMN",
   mkFile (some 0x6f7e) "EF.LOCI",
   mkFile (some 0x6fad) "EF.AD",
   mkFile (some 0x6fb7) "EF.ECC",
   mkFile (some 0x6fc4) "EF.NETPAR",
   mkFile (some 0x6fe3) "EF.EPSLOCI",
   mkFile (some 0x6fe4) "EF.EPSNSC"]

/-- The files list of ProfileTemplate subclass FilesUsimMandatoryV2 (src/pySim/esim/saip/templates.py). -/
def filesUsimMandatoryV2 : List FileTemplate :=
  [mkFile none "ADF.USIM",
   mkFile (some 0x6f07) "EF.IMSI",
   mkFile (some 0x6f06) "EF.ARR",
   mkFile (some 0x6f08) "EF.Keys",
   mkFileP (some 0x6f09) "EF.KeysPS" "ef-keysPS",
   mkFile (some 0x6f31) "EF.HPPLMN",
   mkFile (some 0x6f38) "EF.UST",
   mkFile (some 0x6f3b) "EF.FDN",
   mkFile (some 0x6f3c) "EF.SMS",
   mkFile (some 0x6f42) "EF.SMSP",
   mkFile (some 0x6f43) "EF.SMSS",
   mkFile (some 0x6f46) "EF.SPN",
   mkFile (some 0x6f56) "EF.EST",
   mkFile (some 0x6f5b) "EF.START-HFN",
   mkFile (some 0x6f5c) "EF.THRESHOLD",
   mkFile (some 0x6f73) "EF.PSLOCI",
   mkFile (some 0x6f78) "EF.ACC",
   mkFile (some 0x6f7b) "EF.FPLMN",
   mkFile (some 0x6f7e) "EF.LOCI",
   mkFile (some 0x6fad) "EF.AD",
   mkFile (some 0x6fb7) "EF.ECC",
   mkFile (some 0x6fc4) "EF.NETPAR",
   mkFile (some 0x6fe3) "EF.EPSLOCI",
   mkFile (some 0x6fe4) "EF.EPSNSC"]

/-- The files list of ProfileTemplate subclass FilesUsimOptional (src/pySim/esim/saip/templates.py). -/
def filesUsimOptional : List FileTemplate :=
  [mkFile (some 0x6f05) "EF.LI",
   mkFileP (some 0x6f37) "EF.ACMmax" "ef-acmax",
   mkFile (some 0x6f39) "EF.ACM",
   mkFile (some 0x6f3e) "EF.GID1",
   mkFile (some 0x6f3f) "EF.GID2",
   mkFile (some 0x6f40) "EF.MSISDN",
   mkFile (some 0x6f41) "EF.PUCT",
   mkFile (some 0x6f45) "EF.CBMI",
   mkFile (some 0x6f48) "EF.CBMID",
   mkFile (some 0x6f49) "EF.SDN",
   mkFile (some 0x6f4b) "EF.EXT2",
   mkFile (some 0x6f4c) "EF.EXT3",
   mkFile (some 0x6f50) "EF.CBMIR",
   mkFile (some 0x6f60) "EF.PLMNwAcT",
   mkFile (some 0x6f61) "EF.OPLMNwAcT",
   mkFile (some 0x6f62) "EF.HPLMNwAcT",
   mkFile (some 0x6f2c) "EF.DCK",
   mkFile (some 0x6f32) "EF.CNL",
   mkFile (some 0x6f47) "EF.SMSR",
   mkFile (some 0x6f4d) "EF.BDN",
   mkFile (some 0x6f4e) "EF.EXT5",
   mkFile (some 0x6f4f) "EF.CCP2",
   mkFile (some 0x6f55) "EF.EXT4",
   mkFile (some 0x6f57) "EF.ACL",
   mkFile (some 0x6f58) "EF.CMI",
   mkFile (some 0x6f80) "EF.ICI",
   mkFile (some 0x6f81) "EF.OCI",
   mkFile (some 0x6f82) "EF.ICT",
   mkFile (some 0x6f83) "EF.OCT",
   mkFile (some 0x6fb1) "EF.VGCS",
   mkFile (some 0x6fb2) "EF.VGCSS",
   mkFile (some 0x6fb3) "EF.VBS",
   mkFile (some 0x6fb4) "EF.VBSS",
   mkFile (some 0x6fb5) "EF.eMLPP",
   mkFile (some 0x6fb6) "EF.AaeM",
   mkFile (some 0x6fc3) "EF.HiddenKey",
   mkFile (some 0x6fc5) "EF.PNN",
   mkFile (some 0x6fc6) "EF.OPL",
   mkFile (some 0x6fc7) "EF.MBDN",
   mkFile (some 0x6fc8) "EF.EXT6",
   mkFile (some 0x6fc9) "EF.MBI",
   mkFile (some 0x6fca) "EF.MWIS",
   mkFile (some 0x6fcb) "EF.CFIS",
   mkFile (some 0x6fcb) "EF.EXT7",
   mkFile (some 0x6fcd) "EF.SPDI",
   mkFile (some 0x6fce) "EF.MMSN",
   mkFile (some 0x6fcf) "EF.EXT8",
   mkFile (some 0x6fd0) "EF.MMSICP",
   mkFile (some 0x6fd1) "EF.MMSUP",
   mkFile (some 0x6fd2) "EF.MMSUCP",
   mkFile (some 0x6fd3) "EF.NIA",
   mkFile (some 0x6fd4) "EF.VGCSCA",
   mkFile (some 0x6fd5) "EF.VBSCA",
   mkFile (some 0x6fd6) "EF.GBABP",
   mkFile (some 0x6fd7) "EF.MSK",
   mkFile (some 0x6fd8) "EF.MUK",
   mkFile (some 0x6fd9) "EF.EHPLMN",
   mkFile (some 0x6fda) "EF.GBANL",
   mkFile (some 0x6fdb) "EF.EHPLMNPI",
   mkFile (some 0x6fdc) "EF.LRPLMNSI",
   mkFile (some 0x6fdd) "EF.NAFKCA",
   mkFile (some 0x6fde) "EF.SPNI",
   mkFile (some 0x6fdf) "EF.PNNI",
   mkFile (some 0x6fe2) "EF.NCP-IP",
   mkFile (some 0x6fe6) "EF.UFC",
   mkFile (some 0x6fe8) "EF.NASCONFIG",
   mkFile (some 0x6fe7) "EF.UICCIARI",
   mkFile (some 0x6fec) "EF.PWS",
   mkFile (some 0x6fed) "EF.FDNURI",
   mkFile (some 0x6fee) "EF.BDNURI",
   mkFile (some 0x6fef) "EF.SDNURI",
   mkFile (some 0x6ff0) "EF.IWL",
   mkFile (some 0x6ff1) "EF.IPS",
   mkFile (some 0x6ff2) "EF.IPD"]

/-- The files list of ProfileTemplate subclass FilesUsimOptionalV2 (src/pySim/esim/saip/templates.py). -/
def filesUsimOptionalV2 : List FileTemplate :=
  [mkFile (some 0x6f05) "EF.LI",
   mkFile (some 0x6f37) "EF.ACMmax",
   mkFile (some 0x6f39) "EF.ACM",
   mkFile (some 0x6f3e) "EF.GID1",
   mkFile (some 0x6f3f) "EF.GID2",
   mkFile (some 0x6f40) "EF.MSISDN",
   mkFile (some 0x6f41) "EF.PUCT",
   mkFile (some 0x6f45) "EF.CBMI",
   mkFile (some 0x6f48) "EF.CBMID",
   mkFile (some 0x6f49) "EF.SDN",
   mkFile (some 0x6f4b) "EF.EXT2",
   mkFile (some 0x6f4c) "EF.EXT3",
   mkFile (some 0x6f50) "EF.CBMIR",
   mkFile (some 0x6f60) "EF.PLMNwAcT",
   mkFile (some 0x6f61) "EF.OPLMNwAcT",
   mkFile (some 0x6f62) "EF.HPLMNwAcT",
   mkFile (some 0x6f2c) "EF.DCK",
   mkFile (some 0x6f32) "EF.CNL",
   mkFile (some 0x6f47) "EF.SMSR",
   mkFile (some 0x6f4d) "EF.BDN",
   mkFile (some 0x6f4e) "EF.EXT5",
   mkFile (some 0x6f4f) "EF.CCP2",
   mkFile (some 0x6f55) "EF.EXT4",
   mkFile (some 0x6f57) "EF.ACL",
   mkFile (some 0x6f58) "EF.CMI",
   mkFile (some 0x6f80) "EF.ICI",
   mkFile (some 0x6f81) "EF.OCI",
   mkFile (some 0x6f82) "EF.ICT",
   mkFile (some 0x6f83) "EF.OCT",
   mkFile (some 0x6fb1) "EF.VGCS",
   mkFile (some 0x6fb2) "EF.VGCSS",
   mkFile (some 0x6fb3) "EF.VBS",
   mkFile (some 0x6fb4) "EF.VBSS",
   mkFile (some 0x6fb5) "EF.eMLPP",
   mkFile (some 0x6fb6) "EF.AaeM",
   mkFile (some 0x6fc3) "EF.HiddenKey",
   mkFile (some 0x6fc5) "EF.PNN",
   mkFile (some 0x6fc6) "EF.OPL",
   mkFile (some 0x6fc7) "EF.MBDN",
   mkFile (some 0x6fc8) "EF.EXT6",
   mkFile (some 0x6fc9) "EF.MBI",
   mkFile (some 0x6fca) "EF.MWIS",
   mkFile (some 0x6fcb) "EF.CFIS",
   mkFile (some 0x6fcb) "EF.EXT7",
   mkFile (some 0x6fcd) "EF.SPDI",
   mkFile (some 0x6fce) "EF.MMSN",
   mkFile (some 0x6fcf) "EF.EXT8",
   mkFile (some 0x6fd0) "EF.MMSICP",
   mkFile (some 0x6fd1) "EF.MMSUP",
   mkFile (some 0x6fd2) "EF.MMSUCP",
   mkFile (some 0x6fd3) "EF.NIA",
   mkFile (some 0x6fd4) "EF.VGCSCA",
   mkFile (some 0x6fd5) "EF.VBSCA",
   mkFile (some 0x6fd6) "EF.GBABP",
   mkFile (some 0x6fd7) "EF.MSK",
   mkFile (some 0x6fd8) "EF.MUK",
   mkFile (some 0x6fd9) "EF.EHPLMN",
   mkFile (some 0x6fda) "EF.GBANL",
   mkFile (some 0x6fdb) "EF.EHPLMNPI",
   mkFile (some 0x6fdc) "EF.LRPLMNSI",
   mkFile (some 0x6fdd) "EF.NAFKCA",
   mkFile (some 0x6fde) "EF.SPNI",
   mkFile (some 0x6fdf) "EF.PNNI",
   mkFile (some 0x6fe2) "EF.NCP-IP",
   mkFile (some 0x6fe6) "EF.UFC",
   mkFile (some 0x6fe8) "EF.NASCONFIG",
   mkFile (some 0x6fe7) "EF.UICCIARI",
   mkFile (some 0x6fec) "EF.PWS",
   mkFile (some 0x6fed) "EF.FDNURI",
   mkFile (some 0x6fee) "EF.BDNURI",
   mkFile (some 0x6fef) "EF.SDNURI",
   mkFile (some 0x6ff0) "EF.IWL",
   mkFile (some 0x6ff1) "EF.IPS",
   mkFile (some 0x6ff2) "EF.IPD",
   mkFile (some 0x6ff3) "EF.EPDGID",
   mkFile (some 0x6ff4) "EF.EPDGSELECTION",
   mkFile (some 0x6ff5) "EF.EPDGIDEM",
   mkFile (some 0x6ff6) "EF.EPDGIDEMSEL",
   mkFile (some 0x6ff7) "EF.FromPreferred",
   mkFile (some 0x6ff8) "EF.IMSConfigData",
   mkFile (some 0x6ff9) "EF.3GPPPSDataOff",
   mkFile (some 0x6ffa) "EF.3GPPPSDOSLIST",
   mkFile (some 0x6ffc) "EF.XCAPConfigData",
   mkFile (some 0x6ffd) "EF.EARFCNLIST",
   mkFile (some 0x6ffd) "EF.MudMidCfgdata"]

/-- The files list of ProfileTemplate subclass FilesUsimDfPhonebook (src/pySim/esim/saip/templates.py). -/
def filesUsimDfPhonebook : List FileTemplate :=
  df_pb_files

/-- The files list of ProfileTemplate subclass FilesUsimDfGsmAccess (src/pySim/esim/saip/templates.py). -/
def filesUsimDfGsmAccess : List FileTemplate :=
  [mkFile (some 0x5f3b) "DF.GSM-ACCESS",
   mkFile (some 0x4f20) "EF.Kc",
   mkFile (some 0x4f52) "EF.KcGPRS",
   mkFile (some 0x4f63) "EF.CPBCCH",
   mkFile (some 0x4f64) "EF.InvScan"]

/-- The files list of ProfileTemplate subclass FilesUsimDf5GS (src/pySim/esim/saip/templates.py). -/
def filesUsimDf5GS : List FileTemplate :=
  [mkFileP (some 0x6fc0) "DF.5GS" "df-df-5gs",
   mkFile (some 0x4f01) "EF.5GS3GPPLOCI",
   mkFile (some 0x4f02) "EF.5GSN3GPPLOCI",
   mkFile (some 0x4f03) "EF.5GS3GPPNSC",
   mkFile (some 0x4f04) "EF.5GSN3GPPNSC",
   mkFile (some 0x4f05) "EF.5GAUTHKEYS",
   mkFile (some 0x4f06) "EF.UAC_AIC",
   mkFile (some 0x4f07) "EF.SUCI_Calc_Info",
   mkFile (some 0x4f08) "EF.OPL5G",
   mkFile (some 0x4f09) "EF.SUPI_NAI",
   mkFile (some 0x4f0a) "EF.Routing_Indicator"]

/-- The files list of ProfileTemplate subclass FilesUsimDf5GSv2 (src/pySim/esim/saip/templates.py). -/
def filesUsimDf5GSv2 : List FileTemplate :=
  [mkFileP (some 0x6fc0) "DF.5GS" "df-df-5gs",
   mkFile (some 0x4f01) "EF.5GS3GPPLOCI",
   mkFile (some 0x4f02) "EF.5GSN3GPPLOCI",
   mkFile (some 0x4f03) "EF.5GS3GPPNSC",
   mkFile (some 0x4f04) "EF.5GSN3GPPNSC",
   mkFile (some 0x4f05) "EF.5GAUTHKEYS",
   mkFile (some 0x4f06) "EF.UAC_AIC",
   mkFile (some 0x4f07) "EF.SUCI_Calc_Info",
   mkFile (some 0x4f08) "EF.OPL5G",
   mkFile (some 0x4f09) "EF.SUPI_NAI",
   mkFile (some 0x4f0a) "EF.Routing_Indicator",
   mkFile (some 0x4f0b) "EF.URSP",
   mkFile (some 0x4f0c) "EF.TN3GPPSNN"]

/-- The files list of ProfileTemplate subclass FilesUsimDf5GSv3 (src/pySim/esim/saip/templates.py). -/
def filesUsimDf5GSv3 : List FileTemplate :=
  [mkFileP (some 0x6fc0) "DF.5GS" "df-df-5gs",
   mkFile (some 0x4f01) "EF.5GS3GPPLOCI",
   mkFile (some 0x4f02) "EF.5GSN3GPPLOCI",
   mkFile (some 0x4f03) "EF.5GS3GPPNSC",
   mkFile (some 0x4f04) "EF.5GSN3GPPNSC",
   mkFile (some 0x4f05) "EF.5GAUTHKEYS",
   mkFile (some 0x4f06) "EF.UAC_AIC",
   mkFile (some 0x4f07) "EF.SUCI_Calc_Info",
   mkFile (some 0x4f08) "EF.OPL5G",
   mkFileP (some 0x4f09) "EF.SUPI_NAI" "ef-supinai",
   mkFile (some 0x4f0a) "EF.Routing_Indicator",
   mkFile (some 0x4f0b) "EF.URSP",
   mkFile (some 0x4f0c) "EF.TN3GPPSNN"]

/-- The files list of ProfileTemplate subclass FilesUsimDfSaip (src/pySim/esim/saip/templates.py). -/
def filesUsimDfSaip : List FileTemplate :=
  [mkFileP (some 0x6fd0) "DF.SAIP" "df-df-saip",
   mkFileP (some 0x4f01) "EF.SUCICalcInfo" "ef-suci-calc-info-usim"]

/-- The files list of ProfileTemplate subclass FilesIsimMandatory (src/pySim/esim/saip/templates.py). -/
def filesIsimMandatory : List FileTemplate :=
  [mkFile none "ADF.ISIM",
   mkFile (some 0x6f02) "EF.IMPI",
   mkFile (some 0x6f04) "EF.IMPU",
   mkFile (some 0x6f03) "EF.Domain",
   mkFile (some 0x6f07) "EF.IST",
   mkFile (some 0x6fad) "EF.AD",
   mkFile (some 0x6f06) "EF.ARR"]

/-- The files list of ProfileTemplate subclass FilesIsimOptional (src/pySim/esim/saip/templates.py). -/
def filesIsimOptional : List FileTemplate :=
  [mkFile (some 0x6f09) "EF.P-CSCF",
   mkFile (some 0x6f3c) "EF.SMS",
   mkFile (some 0x6f42) "EF.SMSP",
   mkFile (some 0x6f43) "EF.SMSS",
   mkFile (some 0x6f47) "EF.SMSR",
   mkFile (some 0x6fd5) "EF.GBABP",
   mkFile (some 0x6fd7) "EF.GBANL",
   mkFile (some 0x6fdd) "EF.NAFKCA",
   mkFile (some 0x6fe7) "EF.UICCIARI"]

/-- The files list of ProfileTemplate subclass FilesIsimOptionalv2 (src/pySim/esim/saip/templates.py). -/
def filesIsimOptionalv2 : List FileTemplate :=
  [mkFile (some 0x6f09) "EF.PCSCF",
   mkFile (some 0x6f3c) "EF.SMS",
   mkFile (some 0x6f42) "EF.SMSP",
   mkFile (some 0x6f43) "EF.SMSS",
   mkFile (some 0x6f47) "EF.SMSR",
   mkFile (some 0x6fd5) "EF.GBABP",
   mkFile (some 0x6fd7) "EF.GBANL",
   mkFile (some 0x6fdd) "EF.NAFKCA",
   mkFile (some 0x6fe7) "EF.UICCIARI",
   mkFile (some 0x6ff7) "EF.FromPreferred",
   mkFile (some 0x6ff8) "EF.ImsConfigData",
   mkFile (some 0x6ffc) "EF.XcapconfigData",
   mkFile (some 0x6ffa) "EF.WebRTCURI",
   mkFile (some 0x6ffa) "EF.MudMidCfgData"]

/-- The files list of ProfileTemplate subclass FilesEap (src/pySim/esim/saip/templates.py). -/
def filesEap : List FileTemplate :=
  [mkFile none "DF.EAP",
   mkFile (some 0x4f01) "EF.EAPKEYS",
   mkFile (some 0x4f02) "EF.EAPSTATUS",
   mkFile (some 0x4f03) "EF.PUId",
   mkFile (some 0x4f04) "EF.Ps",
   mkFile (some 0x4f20) "EF.CurID",
   mkFile (some 0x4f21) "EF.RelID",
   mkFile (some 0x4f22) "EF.Realm"]

/-- The files lists of all ProfileTemplate subclasses, in class definition
(and hence registration) order. -/
def allTemplateFiles : List (List FileTemplate) :=
  [filesAtMF,
   filesCD,
   filesTelecom,
   filesTelecomV2,
   filesUsimMandatory,
   filesUsimMandatoryV2,
   filesUsimOptional,
   filesUsimOptionalV2,
   filesUsimDfPhonebook,
   filesUsimDfGsmAccess,
   filesUsimDf5GS,
   filesUsimDf5GSv2,
   filesUsimDf5GSv3,
   filesUsimDfSaip,
   filesIsimMandatory,
   filesIsimOptional,
   filesIsimOptionalv2,
   filesEap]

/-- One Python dict update `d[k] = v` on a dict from pe_name to
FileTemplate, represented as a lookup function. -/
def penameDictInsert (d : String → Option FileTemplate) (k : String) (v : FileTemplate) :
    String → Option FileTemplate :=
  fun q => if q = k then some v else d q

/-- Embedding of the loop in `ProfileTemplate.__init_subclass__`
(src/pySim/esim/saip/templates.py lines 75-76):
`for f in cls.files: cls.files_by_pename[f.pe_name] = f`. -/
def registerTemplateFiles (d : String → Option FileTemplate) (files : List FileTemplate) :
    String → Option FileTemplate :=
  files.foldl (fun d f => penameDictInsert d f.pe_name f) d

/-- The state, after all ProfileTemplate subclasses have been registered, of
the ONE dict created as the class attribute
`ProfileTemplate.files_by_pename` (templates.py line 69).  No subclass
body assigns a `files_by_pename` of its own, so the attribute reference
`cls.files_by_pename` inside `__init_subclass__` resolves for every
subclass to this same base-class dict: each subclass definition mutates
the shared dict in class-definition order.  Reading `T.files_by_pename`
on any subclass T after registration therefore yields this shared dict. -/
def files_by_pename_shared : String → Option FileTemplate :=
  allTemplateFiles.foldl registerTemplateFiles (fun _ => none)

/-! Helper lemmas. -/

/-- The filter-decoding loop of `ApduArDO._from_bytes` never terminates on a
non-empty input: `offset` stays 0, so the loop guard `offset < len(do)`
remains true forever, whatever the fuel. -/
theorem apduArFilterLoop_stuck (dob : List Nat) (hpos : 0 < dob.length) :
    ∀ (fuel : Nat) (acc : List ApduArFilterElem),
      apduArFilterLoop dob 0 fuel acc = none
  | 0, acc => by simp [apduArFilterLoop, hpos]
  | fuel + 1, acc => by
    simp only [apduArFilterLoop, if_pos hpos]
    exact apduArFilterLoop_stuck dob hpos fuel (acc ++ [.str "header", .str "mask"])

/-! Claim theorems. -/

/-- C1: the claim states that for every byte string whose length is a
positive multiple of 8 (and not 1), `ApduArDO._from_bytes` returns a
decoded value with one header/mask dict per 8-byte block.  The code does
not: on such inputs the decode loop never increments `offset` and hence
never terminates (and its body would extend the list with the dict KEYS,
the strings header and mask, not with one dict per block).  Evaluated at
the failing input 0102030405060708 (one 8-byte block), the embedded
method is still looping for every fuel bound. -/
theorem ara_apdu_filter_decode_diverges (fuel : Nat) :
    apduArDO_from_bytes fuel [1, 2, 3, 4, 5, 6, 7, 8] = none := by
  have h := apduArFilterLoop_stuck [1, 2, 3, 4, 5, 6, 7, 8] (by decide) fuel []
  unfold apduArDO_from_bytes
  rw [h]
  decide

set_option maxRecDepth 4000 in
/-- C2: the claim states that every error condition in `ApduArDO._from_bytes`,
`ApduArDO._to_bytes` and `ADF_ARAM.xceive_apdu_tlv` is raised.  The code
instead RETURNS `ValueError` objects as results: `_from_bytes` on the
invalid 1-byte rule 02 and on the invalid 2-byte input 0506,
`_to_bytes` on an invalid generic rule and on a short filter, and
`xceive_apdu_tlv` on a command DO longer than 255 bytes, all return the
error object as the function result. -/
theorem ara_errors_returned_not_raised :
    apduArDO_from_bytes 0 [0x02] =
      some (.returnedValueError "Invalid 1-byte generic APDU access rule")
    ∧ apduArDO_from_bytes 0 [0x05, 0x06] =
      some (.returnedValueError "Invalid non-modulo-8 length of APDU filter")
    ∧ apduArDO_to_bytes (.genericAccessRule "sometimes") =
      .returnedValueError "Invalid 1-byte generic APDU access rule"
    ∧ apduArDO_to_bytes (.apduFilter [.dict ⟨"00", "00"⟩]) =
      .returnedValueError "APDU filter header and mask must each be 4 bytes"
    ∧ xceive_apdu_tlv_capdu "80e29000" (some (List.replicate 256 0)) =
      .returnedValueError "DO > 255 bytes not supported yet" := by
  refine ⟨by decide, by decide, by decide, by decide, by decide⟩

/-- C3: the claim states that `ApduArDO._from_bytes` terminates on every
input.  It does not: on the 8-byte input 0000000000000000 the decode loop
never increments `offset` and runs forever — for every fuel bound the
embedded method is still looping. -/
theorem ara_from_bytes_not_total (fuel : Nat) :
    apduArDO_from_bytes fuel [0, 0, 0, 0, 0, 0, 0, 0] = none := by
  have h := apduArFilterLoop_stuck [0, 0, 0, 0, 0, 0, 0, 0] (by decide) fuel []
  unfold apduArDO_from_bytes
  rw [h]
  decide

/-- C8: the generic-rule paths of the ApduArDO codec behave exactly as the
claim states: encoding the dict with generic_access_rule always yields the
single byte 01 and never yields 00; decoding 01 yields always and
decoding 00 yields never. -/
theorem ara_generic_rule_codec :
    apduArDO_from_bytes 0 [0x01] = some (.ok (.genericAccessRule "always"))
    ∧ apduArDO_from_bytes 0 [0x00] = some (.ok (.genericAccessRule "never"))
    ∧ apduArDO_to_bytes (.genericAccessRule "always") = .ok [0x01]
    ∧ apduArDO_to_bytes (.genericAccessRule "never") = .ok [0x00] := by
  refine ⟨by decide, by decide, by decide, by decide⟩

/-- C9: the claim states that `GpCardKeyset.from_single_key(kvn, base_key)`
returns a keyset with the given kvn and enc = mac = dek = base_key.  The
code instead passes the builtin type object `int` as the kvn constructor
argument, so the constructor's assertion `kvn >= 0` raises `TypeError`
for every input and no keyset is ever returned. -/
theorem from_single_key_raises_type_error (kvn : Nat) (base_key : List Nat) :
    gpCardKeyset_from_single_key kvn base_key = .error "TypeError" := rfl

/-- C7: decoding the bytes of hex c00401708010 under the KeyInformationData
descriptor yields key_identifier 1, key_version_number 112 and key_types
holding the single entry of type des and length 16, with no leftover
bytes; re-encoding that value reproduces exactly the bytes of hex
c00401708010. -/
theorem key_information_data_roundtrip :
    keyInformationData_from_tlv (h2b "c00401708010") =
      some (⟨1, 112, [("des", 16)]⟩, [])
    ∧ keyInformationData_to_tlv ⟨1, 112, [("des", 16)]⟩ = some (h2b "c00401708010") := by
  refine ⟨by decide, by decide⟩

/-- Applying a table on top of a registry yields, at each key, the table's
own (last-entry-wins) binding when the table defines the key, and the
underlying registry's binding otherwise. -/
theorem registryAddTable_lookup {δ : Type} :
    ∀ (t : CommandTable δ) (reg : (Nat × Nat) → Option δ) (k : Nat × Nat),
      registryAddTable reg t k = orElseO (tableLookupLast t k) (reg k)
  | [], _, _ => rfl
  | e :: t, reg, k => by
    simp only [registryAddTable, tableLookupLast]
    rw [registryAddTable_lookup t _ k]
    cases htll : tableLookupLast t k with
    | some v => simp [orElseO]
    | none =>
      by_cases he : e.1 = k <;> simp [orElseO, he]

/-- A table defines a key exactly when its own lookup binds it. -/
theorem tableDefines_iff_lookup {δ : Type} :
    ∀ (t : CommandTable δ) (k : Nat × Nat),
      tableDefines t k = (tableLookupLast t k).isSome
  | [], _ => rfl
  | e :: t, k => by
    simp only [tableDefines, List.any_cons, tableLookupLast]
    have ht : t.any (fun e => e.1 = k) = (tableLookupLast t k).isSome :=
      tableDefines_iff_lookup t k
    rw [ht]
    cases tableLookupLast t k with
    | some v => simp [orElseO]
    | none =>
      by_cases he : e.1 = k <;> simp [orElseO, he]

/-- C4: in a merged registry built from two command tables (as
`ApduCommands = UiccApduCommands + UsimApduCommands` in pySim-trace.py),
every key defined by both tables resolves to the later (second) table's
descriptor, and a key defined by only one table resolves to that table's
descriptor. -/
theorem merged_registry_last_writer_wins {δ : Type} (t1 t2 : CommandTable δ)
    (k : Nat × Nat) :
    (tableDefines t1 k = true → tableDefines t2 k = true →
        buildRegistry [t1, t2] k = buildRegistry [t2] k)
    ∧ (tableDefines t1 k = true → tableDefines t2 k = false →
        buildRegistry [t1, t2] k = buildRegistry [t1] k)
    ∧ (tableDefines t1 k = false → tableDefines t2 k = true →
        buildRegistry [t1, t2] k = buildRegistry [t2] k) := by
  have hmerged : buildRegistry [t1, t2] k =
      orElseO (tableLookupLast t2 k) (orElseO (tableLookupLast t1 k) none) := by
    show registryAddTable (registryAddTable (fun _ => none) t1) t2 k = _
    rw [registryAddTable_lookup t2 _ k, registryAddTable_lookup t1 _ k]
  have h1 : buildRegistry [t1] k = orElseO (tableLookupLast t1 k) none := by
    show registryAddTable (fun _ => none) t1 k = _
    rw [registryAddTable_lookup t1 _ k]
  have h2 : buildRegistry [t2] k = orElseO (tableLookupLast t2 k) none := by
    show registryAddTable (fun _ => none) t2 k = _
    rw [registryAddTable_lookup t2 _ k]
  refine ⟨fun _ hd2 => ?_, fun _ hd2 => ?_, fun _ hd2 => ?_⟩
  · rw [tableDefines_iff_lookup] at hd2
    rw [hmerged, h2]
    cases htll : tableLookupLast t2 k with
    | some v => simp [orElseO]
    | none => rw [htll] at hd2; simp at hd2
  · rw [tableDefines_iff_lookup] at hd2
    rw [hmerged, h1]
    cases htll : tableLookupLast t2 k with
    | some v => rw [htll] at hd2; simp at hd2
    | none => simp [orElseO]
  · rw [tableDefines_iff_lookup] at hd2
    rw [hmerged, h2]
    cases htll : tableLookupLast t2 k with
    | some v => simp [orElseO]
    | none => rw [htll] at hd2; simp at hd2

/-- A UICC-style table binding the SELECT header, sample data for the
witness of the merge-precedence theorem. -/
def uiccSelectTable : CommandTable String := [((0x00, 0xa4), "UICC SELECT")]

/-- A USIM-style table also binding the SELECT header, with a different
descriptor, sample data for the witness of the merge-precedence theorem. -/
def usimSelectTable : CommandTable String := [((0x00, 0xa4), "USIM SELECT")]

/-- Witness for the merge-precedence theorem: both sample tables define
(CLA=0x00, INS=0xa4) and the merged registry resolves it to the later
table's descriptor. -/
theorem merged_registry_last_writer_wins_witness :
    tableDefines uiccSelectTable (0x00, 0xa4) = true
    ∧ tableDefines usimSelectTable (0x00, 0xa4) = true
    ∧ buildRegistry [uiccSelectTable, usimSelectTable] (0x00, 0xa4) = some "USIM SELECT" := by
  refine ⟨by decide, by decide, ?_⟩
  have h := (merged_registry_last_writer_wins uiccSelectTable usimSelectTable
      (0x00, 0xa4)).1 (by decide) (by decide)
  exact h.trans (by decide)

/-- Simp lemma: concatenation of no lists. -/
@[simp] theorem concatAll_nil {α : Type} : concatAll ([] : List (List α)) = [] := rfl

/-- Simp lemma: concatenation of a first list and the remaining lists. -/
@[simp] theorem concatAll_cons {α : Type} (x : List α) (ls : List (List α)) :
    concatAll (x :: ls) = x ++ concatAll ls := rfl

/-- Setting the continuation bit is idempotent. -/
theorem or_one_idem (p2 : Nat) : (p2 ||| 1) ||| 1 = p2 ||| 1 := by
  have h11 : (1 : Nat) ||| 1 = 1 := by decide
  rw [Nat.or_assoc, h11]

/-- The GET STATUS loop on a trace of continuation responses (status word
6310) followed by a final response: it returns, in encounter order, the
decoded element sequences of all responses up to and including the final
one, issuing the first command with the given p2 and every re-issued
command with the continuation bit set. -/
theorem get_status_loop_spec :
    ∀ (pre : List (List Nat × String)) (r : List Nat × String)
      (post : List (List Nat × String)) (p2 : Nat) (acc : List (Nat × List Nat))
      (issued : List Nat),
      (∀ x ∈ pre, x.2 = "6310") → r.2 ≠ "6310" →
      (∀ x ∈ pre ++ [r], (decode_grd_sequence x.1).isSome = true) →
      get_status_loop (pre ++ r :: post) p2 acc issued =
        some (acc ++ concatAll ((pre ++ [r]).map (fun x => (decode_grd_sequence x.1).getD [])),
              issued ++ p2 :: List.replicate pre.length (p2 ||| 1))
  | [], r, post, p2, acc, issued, _, hr, hdec => by
    obtain ⟨data, sw⟩ := r
    obtain ⟨elems, he⟩ := Option.isSome_iff_exists.mp (hdec (data, sw) (by simp))
    simp only [List.nil_append, get_status_loop, he, List.length_nil, List.replicate_zero]
    rw [if_pos hr]
    simp [he]
  | x :: pre, r, post, p2, acc, issued, hpre, hr, hdec => by
    obtain ⟨data, sw⟩ := x
    have hsw : sw = "6310" := hpre (data, sw) (by simp)
    obtain ⟨elems, he⟩ := Option.isSome_iff_exists.mp (hdec (data, sw) (by simp))
    have hrec := get_status_loop_spec pre r post (p2 ||| 1) (acc ++ elems)
        (issued ++ [p2]) (fun y hy => hpre y (by simp [hy]))
        hr (fun y hy => hdec y (by simp at hy ⊢; tauto))
    simp only [List.cons_append, get_status_loop, he, List.append_eq]
    rw [if_neg (by simp [hsw])]
    rw [hrec]
    simp [he, or_one_idem, List.replicate_succ]

/-- C5: `get_status` decodes each response as a back-to-back sequence of
GpRegistryRelatedData TLV elements using the leftover bytes of each
from_tlv call, re-issues the command exactly while the returned status
word is 6310 — with the continuation bit set in P2 (the first command
carries P2 = 0x02, every re-issued one P2 = 0x02 ||| 0x01 = 0x03) — and,
once a status word other than 6310 is returned, returns the concatenation
in encounter order of all elements of all responses. -/
theorem get_status_continuation (pre : List (List Nat × String)) (r : List Nat × String)
    (post : List (List Nat × String))
    (hpre : ∀ x ∈ pre, x.2 = "6310") (hr : r.2 ≠ "6310")
    (hdec : ∀ x ∈ pre ++ [r], (decode_grd_sequence x.1).isSome = true) :
    get_status (pre ++ r :: post) =
      some (concatAll ((pre ++ [r]).map (fun x => (decode_grd_sequence x.1).getD [])),
            0x02 :: List.replicate pre.length 0x03) := by
  have h := get_status_loop_spec pre r post 0x02 [] [] hpre hr hdec
  have h31 : (2 : Nat) ||| 1 = 3 := by decide
  rw [h31] at h
  simpa [get_status] using h

/-- Witness for the GET STATUS theorem: a continuation response with one
empty registry element and status 6310 followed by a final response with
one element, decoded into both elements with the re-issued command
carrying P2 = 0x03. -/
theorem get_status_continuation_witness :
    get_status [([0xe3, 0x00], "6310"), ([0xe3, 0x01, 0x42], "9000")] =
      some ([(0xe3, ([] : List Nat)), (0xe3, [0x42])], [0x02, 0x03]) := by
  have h := get_status_continuation [([0xe3, 0x00], "6310")] ([0xe3, 0x01, 0x42], "9000")
      [] (by decide) (by decide) (by decide)
  exact h.trans (by decide)

/-- C6: in Tracer.main a CardReset event resets the entire RuntimeState —
every logical channel back to Unselected — and the iteration continues
without performing the instruction-registry lookup / process() step (the
Bool component of the step records whether that step ran); lookup and
processing happen exactly for the non-reset APDU events, whose state is
produced by the decoder lookup + process step. -/
theorem tracer_card_reset_no_lookup {β : Type}
    (inputAndProcess : β → RuntimeState → RuntimeState) (rs : RuntimeState) (a : β) :
    ((tracerStep inputAndProcess rs .cardReset).1.channels.all
        (fun c => c == ChannelState.unselected)) = true
    ∧ (tracerStep inputAndProcess rs .cardReset).2 = false
    ∧ (tracerStep inputAndProcess rs (.apdu a)).2 = true
    ∧ (tracerStep inputAndProcess rs (.apdu a)).1 = inputAndProcess a rs := by
  refine ⟨?_, rfl, rfl, rfl⟩
  simp [tracerStep, runtimeStateReset, List.all_eq_true]

set_option maxRecDepth 100000 in
/-- C10: the claim states that each ProfileTemplate subclass T has its own
files_by_pename map holding exactly T's own files.  In the code every
subclass shares the single dict created in the base-class body, so the map
reachable as T.files_by_pename is the same for all T and holds every
template's files: after all registrations it maps the key df-cd to the
DF.CD file of FilesCD, although no file of FilesAtMF (nor of any template
other than FilesCD) has that pe_name — so FilesAtMF.files_by_pename
contains an entry for a file belonging only to another template. -/
theorem files_by_pename_is_shared :
    files_by_pename_shared "df-cd" = some ⟨some 0x7f11, "DF.CD", "df-cd"⟩
    ∧ filesAtMF.all (fun f => f.pe_name != "df-cd") = true := by
  refine ⟨by decide, by decide⟩

end PySim
